import Mathlib

/-!
Shallow embedding of the Retrieval-Gated Responder from `src/app.py`
(Butterfly DIY Assistant).

The Python function `answer_query_with_confidence_2(user_query, chat_history,
threshold=0.5, max_history_turns=10)` composes three external collaborators:
an embedding service, a vector-search service and a chat-completion service.
Here the collaborators are explicit function parameters (stubs), retrieval
scores and the temperature are rationals, message dictionaries are a `Msg`
structure, and Pinecone match metadata is an association list of string pairs
(`m.metadata.get(key, "")` becomes `metaGet`).

The Python function never assigns to or calls a mutating method on
`chat_history` (it only iterates over it), so its state-passing embedding
returns the history unchanged in the `history_after` field of the result.
-/

/-- A chat message dictionary with keys "role" and "content". -/
structure Msg where
  role : String
  content : String
deriving DecidableEq, Repr

/-- A Pinecone match: a score and a metadata mapping. -/
structure RetrievalMatch where
  score : ℚ
  metadata : List (String × String)
deriving DecidableEq, Repr

/-- The mentor persona system instruction from `app.py`. -/
def MENTOR_STYLE_INSTRUCTION : String :=
  "You are a friendly mentor helping kids and parents with Butterfly Fields DIY kits. " ++
  "Always explain things in a clear, step-by-step way, simple enough for a child but also helpful for parents. " ++
  "Keep your tone encouraging and supportive, like a teacher guiding a curious student. " ++
  "Give answers in short, bite-sized pieces (2–4 sentences max). " ++
  "Whenever possible, use simple bullets (•) or numbered steps (1, 2, 3). " ++
  "If the instruction manuals provide the answer, use only them to give your answer. " ++
  "Otherwise, say you don\x27t know. "

/-- The predefined kit list from `app.py`. -/
def KNOWN_KITS : List String :=
  ["Fun With Magnets",
   "Components of food",
   "Integers Positive and Negative",
   "Separation of substances",
   "Mensuration – Area perimeter",
   "Motion and measurement of distance",
   "India Natural Resources Minerals and Rocks",
   "Journey of a water drop",
   "Practical Geometry Constructions",
   "Numbers Factors Multiples"]

/-- `kit_list = "\n".join([f"- {kit}" for kit in KNOWN_KITS])`. -/
def kit_list : String :=
  String.intercalate "\n" (KNOWN_KITS.map (fun kit => "- " ++ kit))

/-- The part of the fallback text before the kit list (the f-string pieces). -/
def fallback_header : String :=
  "🤔 Sorry, I don’t see that in the Butterfly Fields manuals. 🦋  \n" ++
  "Could you tell me which kit or activity you mean?  \n" ++
  "\nHere are some kits I can answer about:\n"

/-- The fixed fallback response built inside `answer_query_with_confidence_2`. -/
def fallback_response : String :=
  fallback_header ++ kit_list

/-- `metadata.get(key, "")` on a Pinecone metadata mapping. -/
def metaGet (metadata : List (String × String)) (key : String) : String :=
  (metadata.lookup key).getD ""

/-- `best_score = results.matches[0].score if results.matches else 0`. -/
def best_score (ms : List RetrievalMatch) : ℚ :=
  match ms with
  | [] => 0
  | m :: _ => m.score

/-- `context_texts = [m.metadata.get("text_content", "") for m in results.matches]`. -/
def context_texts (ms : List RetrievalMatch) : List String :=
  ms.map (fun m => metaGet m.metadata "text_content")

/-- `context_block = "\n\n".join(context_texts)`. -/
def context_block (ms : List RetrievalMatch) : String :=
  String.intercalate "\n\n" (context_texts ms)

/-- The user-role context message appended when the confidence gate passes. -/
def context_turn (ms : List RetrievalMatch) : Msg :=
  ⟨"user", "Relevant context from instruction manuals:\n" ++ context_block ms⟩

/-- The assistant-role fallback message appended when the gate fails. -/
def fallback_turn : Msg :=
  ⟨"assistant", fallback_response⟩

/-- The message list built in Step 3 of `answer_query_with_confidence_2`:
system instruction, then the chat history turns in order, then the
context-or-fallback turn chosen by `best_score >= threshold`, then the
user query. -/
def llm_prompt (user_query : String) (chat_history : List Msg) (threshold : ℚ)
    (ms : List RetrievalMatch) : List Msg :=
  ⟨"system", MENTOR_STYLE_INSTRUCTION⟩ ::
    (chat_history ++
      ((if best_score ms ≥ threshold then [context_turn ms] else [fallback_turn]) ++
        [⟨"user", user_query⟩]))

/-- Constant `OPENAI_EMBED_MODEL` from `app.py`. -/
def OPENAI_EMBED_MODEL : String := "text-embedding-3-small"

/-- The namespace string passed to `index.query` in `app.py`. -/
def PINECONE_NS : String := "diy_kit_support_chunks"

/-- The chat model name passed to `client.chat.completions.create`. -/
def CHAT_MODEL : String := "gpt-3.5-turbo"

/-- The temperature passed to `client.chat.completions.create` (0.2). -/
def CHAT_TEMPERATURE : ℚ := 1/5

/-- The four values returned by `answer_query_with_confidence_2`, plus
`history_after`: the caller-visible state of `chat_history` after the call
(the state-passing embedding of the function's effect on the caller's list;
the source only reads the list). -/
structure RespondResult where
  answer : String
  best : ℚ
  contexts : List String
  fallback : String
  history_after : List Msg
deriving DecidableEq, Repr

/-- Embedding of `answer_query_with_confidence_2` in `app.py`.
`embed model input` stubs `client.embeddings.create(...).data[0].embedding`;
`search vector top_k ns` stubs `index.query(...)` returning the match list;
`chat model messages temperature` stubs
`client.chat.completions.create(...).choices[0].message.content`.
The `max_history_turns` parameter is accepted, as in the source, and is
never used by the body (the source body never mentions it). -/
def answer_query_with_confidence_2
    (embed : String → String → List ℚ)
    (search : List ℚ → Nat → String → List RetrievalMatch)
    (chat : String → List Msg → ℚ → String)
    (user_query : String) (chat_history : List Msg)
    (threshold : ℚ) (max_history_turns : Nat) : RespondResult :=
  let embedding := embed OPENAI_EMBED_MODEL user_query
  let results := search embedding 5 PINECONE_NS
  { answer := chat CHAT_MODEL (llm_prompt user_query chat_history threshold results)
        CHAT_TEMPERATURE
  , best := best_score results
  , contexts := context_texts results
  , fallback := fallback_response
  , history_after := chat_history }

/-- The message sequence an invocation sends to the chat-completion
collaborator, as a function of the query, history, threshold and the
stubbed embedding and search collaborators. -/
def sent_prompt (embed : String → String → List ℚ)
    (search : List ℚ → Nat → String → List RetrievalMatch)
    (user_query : String) (chat_history : List Msg) (threshold : ℚ) : List Msg :=
  llm_prompt user_query chat_history threshold
    (search (embed OPENAI_EMBED_MODEL user_query) 5 PINECONE_NS)

/-- Modelled from the spec: the labeled block format the spec prescribes for
each retrieved match, "[kit_title] activity_title (chunk_type): text_content".
Stated only for comparison against the source's `context_texts`, which uses
just the "text_content" field. -/
def spec_labeled_block (m : RetrievalMatch) : String :=
  "[" ++ metaGet m.metadata "kit_title" ++ "] " ++
  metaGet m.metadata "activity_title" ++
  " (" ++ metaGet m.metadata "chunk_type" ++ "): " ++
  metaGet m.metadata "text_content"

/-- Modelled from the spec: trimming of leading and trailing whitespace,
the operation the spec's sentence "Return the generated text, trimmed of
leading/trailing whitespace" prescribes; the source has no trimming step,
so this definition exists only to compare the returned answer against the
spec's words. -/
def spec_trim (s : String) : String :=
  ⟨((s.data.dropWhile Char.isWhitespace).reverse.dropWhile Char.isWhitespace).reverse⟩

/-- A concrete high-confidence match with full metadata, for the labeling
counterexample. -/
def mMagnet : RetrievalMatch :=
  ⟨1, [("kit_title", "Fun With Magnets"), ("activity_title", "Magnet basics"),
       ("chunk_type", "steps"), ("text_content", "Contains 10 magnets.")]⟩

/-- A concrete history of 11 turns, above the default turn limit. -/
def hist11 : List Msg := List.replicate 11 ⟨"user", "hi"⟩

/-- A concrete low-confidence match (score 0, below any positive threshold). -/
def mLow : RetrievalMatch := ⟨0, [("text_content", "Some unrelated manual text.")]⟩

/-- A chat-completion stub whose output depends on the whole prompt. -/
def chat_echo : String → List Msg → ℚ → String :=
  fun _ msgs _ => String.intercalate " || " (msgs.map Msg.content)

/-- A chat-completion stub returning text padded with whitespace. -/
def chat_padded : String → List Msg → ℚ → String :=
  fun _ _ _ => "  You need 10 magnets.  "

/-- A concrete match whose metadata lacks the "text_content" key. -/
def mNoKey : RetrievalMatch := ⟨1, [("kit_title", "Fun With Magnets")]⟩

/-- The prompt always equals: system turn, the history, the gate turn chosen
by the confidence comparison, and the user-query turn. Shared helper. -/
theorem llm_prompt_eq (user_query : String) (chat_history : List Msg)
    (threshold : ℚ) (ms : List RetrievalMatch) :
    llm_prompt user_query chat_history threshold ms
      = ⟨"system", MENTOR_STYLE_INSTRUCTION⟩ ::
          (chat_history ++
            [(if best_score ms ≥ threshold then context_turn ms else fallback_turn),
             ⟨"user", user_query⟩]) := by
  by_cases h : best_score ms ≥ threshold <;> simp [llm_prompt, h]

/-- C1: when `best_score < threshold`, the prompt sent to the chat model is
exactly the system instruction, the history, the fixed fallback text as a
prior assistant-role turn, and the user query; no retrieved context block
appears, the fallback ends with the kit list, and the kit list has 10
entries. -/
theorem C1_low_confidence_fallback (user_query : String) (chat_history : List Msg)
    (threshold : ℚ) (ms : List RetrievalMatch)
    (hlow : best_score ms < threshold) :
    llm_prompt user_query chat_history threshold ms
      = ⟨"system", MENTOR_STYLE_INSTRUCTION⟩ ::
          (chat_history ++ [fallback_turn, ⟨"user", user_query⟩])
    ∧ fallback_turn = ⟨"assistant", fallback_response⟩
    ∧ fallback_response = fallback_header ++ kit_list
    ∧ KNOWN_KITS.length = 10 := by
  refine ⟨?_, rfl, rfl, rfl⟩
  simp [llm_prompt, if_neg (not_le.mpr hlow)]

/-- Witness for C1 at a concrete low-confidence input. -/
theorem C1_witness :
    best_score ([] : List RetrievalMatch) < (1 : ℚ)
    ∧ (llm_prompt "q" [] 1 []
        = ⟨"system", MENTOR_STYLE_INSTRUCTION⟩ :: ([] ++ [fallback_turn, ⟨"user", "q"⟩])
      ∧ fallback_turn = ⟨"assistant", fallback_response⟩
      ∧ fallback_response = fallback_header ++ kit_list
      ∧ KNOWN_KITS.length = 10) :=
  ⟨by decide, C1_low_confidence_fallback "q" [] 1 [] (by decide)⟩

set_option maxRecDepth 16384 in
/-- C2 counterexample: at a high-confidence match carrying kit_title,
activity_title and chunk_type metadata, the context turn placed in the
prompt carries only the raw text_content, not the labeled block
"[kit_title] activity_title (chunk_type): text_content" the claim
describes. -/
theorem C2_counterexample :
    best_score [mMagnet] ≥ (1 : ℚ)
    ∧ llm_prompt "How many magnets are in the kit?" [] 1 [mMagnet]
        = [⟨"system", MENTOR_STYLE_INSTRUCTION⟩,
           ⟨"user", "Relevant context from instruction manuals:\nContains 10 magnets."⟩,
           ⟨"user", "How many magnets are in the kit?"⟩]
    ∧ "Relevant context from instruction manuals:\nContains 10 magnets."
        ≠ "Relevant context from instruction manuals:\n" ++ spec_labeled_block mMagnet :=
  ⟨by decide, by decide, by decide⟩

/-- C2 amended: when `best_score >= threshold`, the context turn in the
prompt contains exactly the retrieved matches' text_content values, in the
order returned by search, joined with blank-line separators; the matches
are not labeled with kit/activity/chunk-type. -/
theorem C2_context_block_unlabeled (user_query : String) (chat_history : List Msg)
    (threshold : ℚ) (ms : List RetrievalMatch)
    (hconf : best_score ms ≥ threshold) :
    llm_prompt user_query chat_history threshold ms
      = ⟨"system", MENTOR_STYLE_INSTRUCTION⟩ ::
          (chat_history ++ [context_turn ms, ⟨"user", user_query⟩])
    ∧ (context_turn ms).content
        = "Relevant context from instruction manuals:\n"
            ++ String.intercalate "\n\n"
                 (ms.map (fun m => metaGet m.metadata "text_content")) := by
  constructor
  · rw [llm_prompt_eq, if_pos hconf]
  · rfl

/-- Witness for the amended C2 at a concrete high-confidence input. -/
theorem C2_unlabeled_witness :
    best_score [mMagnet] ≥ (1 : ℚ)
    ∧ (llm_prompt "q" [] 1 [mMagnet]
        = ⟨"system", MENTOR_STYLE_INSTRUCTION⟩ ::
            ([] ++ [context_turn [mMagnet], ⟨"user", "q"⟩])
      ∧ (context_turn [mMagnet]).content
          = "Relevant context from instruction manuals:\n"
              ++ String.intercalate "\n\n"
                   ([mMagnet].map (fun m => metaGet m.metadata "text_content"))) :=
  ⟨by decide, C2_context_block_unlabeled "q" [] 1 [mMagnet] (by decide)⟩

set_option maxRecDepth 16384 in
/-- C3 counterexample: with an 11-turn history the prompt contains all 11
original turns unchanged, so the history segment has length 11, not the
claimed 6 (the whole prompt has 14 messages, not 6 + 3). No summarization
call exists in the source, whose `max_history_turns` parameter is unused. -/
theorem C3_counterexample :
    hist11.length = 11
    ∧ llm_prompt "q" hist11 1 []
        = ⟨"system", MENTOR_STYLE_INSTRUCTION⟩ :: (hist11 ++ [fallback_turn, ⟨"user", "q"⟩])
    ∧ (llm_prompt "q" hist11 1 []).length = 14
    ∧ (llm_prompt "q" hist11 1 []).length ≠ 6 + 3 :=
  ⟨by decide, by decide, by decide, by decide⟩

/-- C3 amended: the responder performs no history compaction; even when the
history exceeds 10 turns, every original turn appears unchanged and in
order in the prompt, whose length is `len(history) + 3`. -/
theorem C3_no_compaction (user_query : String) (chat_history : List Msg)
    (threshold : ℚ) (ms : List RetrievalMatch)
    (hlong : chat_history.length > 10) :
    llm_prompt user_query chat_history threshold ms
      = ⟨"system", MENTOR_STYLE_INSTRUCTION⟩ ::
          (chat_history ++
            [(if best_score ms ≥ threshold then context_turn ms else fallback_turn),
             ⟨"user", user_query⟩])
    ∧ (llm_prompt user_query chat_history threshold ms).length
        = chat_history.length + 3 := by
  constructor
  · exact llm_prompt_eq user_query chat_history threshold ms
  · rw [llm_prompt_eq]
    simp

/-- Witness for the amended C3 at a concrete 11-turn history. -/
theorem C3_no_compaction_witness :
    hist11.length > 10
    ∧ (llm_prompt "q" hist11 1 []
        = ⟨"system", MENTOR_STYLE_INSTRUCTION⟩ ::
            (hist11 ++
              [(if best_score ([] : List RetrievalMatch) ≥ (1 : ℚ) then context_turn []
                else fallback_turn),
               ⟨"user", "q"⟩])
      ∧ (llm_prompt "q" hist11 1 []).length = hist11.length + 3) :=
  ⟨by decide, C3_no_compaction "q" hist11 1 [] (by decide)⟩

/-- C4: the best score returned by the responder is the score of the first
match returned by the vector search, and `best_score` of an empty match
list is 0. -/
theorem C4_best_score_top
    (embed : String → String → List ℚ)
    (search : List ℚ → Nat → String → List RetrievalMatch)
    (chat : String → List Msg → ℚ → String)
    (user_query : String) (chat_history : List Msg) (threshold : ℚ) (mh : Nat) :
    (answer_query_with_confidence_2 embed search chat user_query chat_history
        threshold mh).best
      = best_score (search (embed OPENAI_EMBED_MODEL user_query) 5 PINECONE_NS)
    ∧ (∀ (m : RetrievalMatch) (rest : List RetrievalMatch),
        best_score (m :: rest) = m.score)
    ∧ best_score ([] : List RetrievalMatch) = 0 :=
  ⟨rfl, fun _ _ => rfl, rfl⟩

set_option maxRecDepth 32768 in
/-- C5 counterexample: an empty result set and a below-threshold match list
produce the identical prompt, and the identical answer even under a
chat-model stub that echoes the whole prompt; the two conditions take the
same response path, so no distinguishable NoMatch outcome exists. -/
theorem C5_counterexample :
    best_score ([] : List RetrievalMatch) < (1 : ℚ)
    ∧ best_score [mLow] < (1 : ℚ)
    ∧ llm_prompt "q" [] 1 [] = llm_prompt "q" [] 1 [mLow]
    ∧ (answer_query_with_confidence_2 (fun _ _ => []) (fun _ _ _ => []) chat_echo
          "q" [] 1 10).answer
        = (answer_query_with_confidence_2 (fun _ _ => []) (fun _ _ _ => [mLow]) chat_echo
            "q" [] 1 10).answer :=
  ⟨by decide, by decide, by decide, by decide⟩

/-- C5 amended: for any positive threshold, every low-confidence invocation
builds exactly the same prompt as the empty-result invocation with the same
query and history; the empty-result case is not a distinct response path,
and the two differ only in the returned best_score/context_texts values. -/
theorem C5_low_confidence_same_prompt (user_query : String) (chat_history : List Msg)
    (threshold : ℚ) (ms : List RetrievalMatch)
    (hpos : 0 < threshold) (hlow : best_score ms < threshold) :
    llm_prompt user_query chat_history threshold ms
      = llm_prompt user_query chat_history threshold [] := by
  have h0 : ¬ best_score ([] : List RetrievalMatch) ≥ threshold := not_le.mpr hpos
  rw [llm_prompt_eq, llm_prompt_eq, if_neg (not_le.mpr hlow), if_neg h0]

/-- Witness for the amended C5 at a concrete low-confidence input. -/
theorem C5_same_prompt_witness :
    (0 : ℚ) < 1
    ∧ best_score [mLow] < (1 : ℚ)
    ∧ llm_prompt "q" [] 1 [mLow] = llm_prompt "q" [] 1 [] :=
  ⟨by decide, by decide,
   C5_low_confidence_same_prompt "q" [] 1 [mLow] (by decide) (by decide)⟩

/-- C6: the responder never mutates the caller-supplied history; the
state-passing embedding returns it unchanged. -/
theorem C6_history_not_mutated
    (embed : String → String → List ℚ)
    (search : List ℚ → Nat → String → List RetrievalMatch)
    (chat : String → List Msg → ℚ → String)
    (user_query : String) (chat_history : List Msg) (threshold : ℚ) (mh : Nat) :
    (answer_query_with_confidence_2 embed search chat user_query chat_history
        threshold mh).history_after = chat_history :=
  rfl

/-- C7 counterexample: with a chat stub returning whitespace-padded text,
the responder returns that text verbatim, which differs from its trimmed
form; the source applies no trimming. -/
theorem C7_counterexample :
    (answer_query_with_confidence_2 (fun _ _ => []) (fun _ _ _ => []) chat_padded
        "q" [] 1 10).answer = "  You need 10 magnets.  "
    ∧ "  You need 10 magnets.  " ≠ spec_trim "  You need 10 magnets.  " :=
  ⟨rfl, by decide⟩

/-- C7 amended: the answer equals the chat model's generated text verbatim,
with no trimming of leading or trailing whitespace. -/
theorem C7_answer_verbatim
    (embed : String → String → List ℚ)
    (search : List ℚ → Nat → String → List RetrievalMatch)
    (chat : String → List Msg → ℚ → String)
    (user_query : String) (chat_history : List Msg) (threshold : ℚ) (mh : Nat) :
    (answer_query_with_confidence_2 embed search chat user_query chat_history
        threshold mh).answer
      = chat CHAT_MODEL (sent_prompt embed search user_query chat_history threshold)
          CHAT_TEMPERATURE :=
  rfl

/-- C8: prompt assembly is deterministic: if two invocations share the
query, history and threshold and their stubbed embedding and search
collaborators return identical responses, the message sequences sent to
the chat-completion collaborator are identical. -/
theorem C8_prompt_deterministic
    (embed1 embed2 : String → String → List ℚ)
    (search1 search2 : List ℚ → Nat → String → List RetrievalMatch)
    (user_query : String) (chat_history : List Msg) (threshold : ℚ)
    (hembed : embed1 OPENAI_EMBED_MODEL user_query = embed2 OPENAI_EMBED_MODEL user_query)
    (hsearch : ∀ v : List ℚ, search1 v 5 PINECONE_NS = search2 v 5 PINECONE_NS) :
    sent_prompt embed1 search1 user_query chat_history threshold
      = sent_prompt embed2 search2 user_query chat_history threshold := by
  unfold sent_prompt
  rw [hsearch, hembed]

/-- Witness for C8 at concrete stubs. -/
theorem C8_witness :
    ((fun _ _ => ([] : List ℚ)) : String → String → List ℚ) OPENAI_EMBED_MODEL "q"
      = (fun _ _ => ([] : List ℚ)) OPENAI_EMBED_MODEL "q"
    ∧ sent_prompt (fun _ _ => []) (fun _ _ _ => []) "q" [] 1
        = sent_prompt (fun _ _ => []) (fun _ _ _ => []) "q" [] 1 :=
  ⟨rfl,
   C8_prompt_deterministic (fun _ _ => []) (fun _ _ => []) (fun _ _ _ => [])
     (fun _ _ _ => []) "q" [] 1 rfl (fun _ => rfl)⟩

/-- C9: the prompt always has `len(history) + 3` messages: the mentor
system instruction first, then the history turns in order, then one
context-or-fallback turn (user-role context when confident, assistant-role
fallback otherwise), then a user-role turn with the original query. -/
theorem C9_prompt_shape (user_query : String) (chat_history : List Msg)
    (threshold : ℚ) (ms : List RetrievalMatch) :
    (llm_prompt user_query chat_history threshold ms).length = chat_history.length + 3
    ∧ (llm_prompt user_query chat_history threshold ms).take 1
        = [⟨"system", MENTOR_STYLE_INSTRUCTION⟩]
    ∧ ((llm_prompt user_query chat_history threshold ms).drop 1).take chat_history.length
        = chat_history
    ∧ (llm_prompt user_query chat_history threshold ms).drop (chat_history.length + 1)
        = [(if best_score ms ≥ threshold then context_turn ms else fallback_turn),
           ⟨"user", user_query⟩]
    ∧ (if best_score ms ≥ threshold then context_turn ms else fallback_turn).role
        = (if best_score ms ≥ threshold then "user" else "assistant") := by
  refine ⟨?_, ?_, ?_, ?_, ?_⟩
  · rw [llm_prompt_eq]
    simp
  · rw [llm_prompt_eq]
    simp
  · rw [llm_prompt_eq]
    exact List.take_left chat_history _
  · rw [llm_prompt_eq]
    simp [List.drop_left]
  · by_cases h : best_score ms ≥ threshold <;> simp [h, context_turn, fallback_turn]

/-- C10: context_texts has the same length and order as the match list, and
a match whose metadata lacks the "text_content" key contributes the empty
string. -/
theorem C10_context_texts_total (ms : List RetrievalMatch) :
    (context_texts ms).length = ms.length
    ∧ (∀ i : Nat, (context_texts ms)[i]?
        = (ms[i]?).map (fun m => metaGet m.metadata "text_content"))
    ∧ (∀ m : RetrievalMatch, m.metadata.lookup "text_content" = none →
        metaGet m.metadata "text_content" = "") :=
  ⟨by simp [context_texts], fun i => by simp [context_texts],
   fun m hm => by simp [metaGet, hm]⟩

/-- Witness for C10 at a concrete match missing the "text_content" key. -/
theorem C10_witness :
    (context_texts [mNoKey]).length = [mNoKey].length
    ∧ metaGet mNoKey.metadata "text_content" = "" :=
  ⟨(C10_context_texts_total [mNoKey]).1,
   (C10_context_texts_total [mNoKey]).2.2 mNoKey (by decide)⟩
